import Mathlib

/-!
Shallow embedding of the custom UI widgets of
`omni/flaming/font/ui/custom_ui_widget.py` (the FlamingFont repository),
together with proofs about their revert/default state machine.

Each widget class becomes a Lean structure holding the fields the Python
object mutates (the toolkit model value, the revert image's `enabled`
flag, button names, ...).  Each Python method becomes a Lean function
from state to state; methods that fire a registered callback also return
the list of arguments the callback was invoked with.  Python code that
can raise (calling a `None` callback) returns `Except`.

The file `custom_base_widget.py` (class `CustomBaseWidget`) is imported
by the source but is not part of the repository snapshot; the only facts
taken from it are modelled from the spec and marked as such below.
-/

namespace FlamingFont

/-- State of a `ui.Button` as the widget code uses it: its style `name`
and its `enabled` flag. -/
structure UiButton where
  name : String
  enabled : Bool
deriving DecidableEq, Repr

/-- Python's `str.capitalize()`: first character upper-cased, the rest
lower-cased (used by `_on_button` on the all-lowercase sky/flow type
strings). -/
def pyCapitalize (s : String) : String :=
  match s.data with
  | [] => ""
  | c :: cs => String.mk (c.toUpper :: cs.map Char.toLower)

/-! ## CustomComboboxWidget

State: the selected-index value held by the combobox's item value model
(`model.get_item_value_model()`), the constructor's `default_value`, and
the revert image's `enabled` flag. -/

structure CustomComboboxWidget where
  default_val : Int
  comboboxVal : Int
  revertEnabled : Bool
deriving DecidableEq, Repr

namespace CustomComboboxWidget

/-- `__init__` + `_build_body`: the combobox is created as
`ui.ComboBox(0, *option_list, ...)`, i.e. with selected index `0`
(not `default_value`).
Modelled from the spec: `CustomBaseWidget` (not in the snapshot) builds
the revert image initially disabled — "Initial state: `Clean`". -/
def build (default_value : Int) : CustomComboboxWidget :=
  { default_val := default_value, comboboxVal := 0, revertEnabled := false }

/-- `_on_value_changed`: reads the index from the model and sets
`revert_img.enabled = self.__default_val != index`. -/
def on_value_changed (w : CustomComboboxWidget) : CustomComboboxWidget :=
  { w with revertEnabled := decide (w.default_val ≠ w.comboboxVal) }

/-- A value-change event delivered by the toolkit: the model value is
set to `v`, then the registered `_on_value_changed` callback runs. -/
def setValue (w : CustomComboboxWidget) (v : Int) : CustomComboboxWidget :=
  on_value_changed { w with comboboxVal := v }

/-- `_restore_default`: guarded by `revert_img.enabled`; writes the
default into the model and disables the revert image. -/
def restore_default (w : CustomComboboxWidget) : CustomComboboxWidget :=
  if w.revertEnabled then
    { w with comboboxVal := w.default_val, revertEnabled := false }
  else w

/-- A sequence of value-change events, applied in order. -/
def applySets (w : CustomComboboxWidget) (vs : List Int) : CustomComboboxWidget :=
  vs.foldl setValue w

/-- The dirty flag agrees with `current != default`. -/
def dirtyInv (w : CustomComboboxWidget) : Prop :=
  w.revertEnabled = decide (w.comboboxVal ≠ w.default_val)

instance (w : CustomComboboxWidget) : Decidable w.dirtyInv := by
  unfold dirtyInv; infer_instance

end CustomComboboxWidget

/-! ## CustomBoolWidget

State: the `checked` flag and style `name` of the inner `ui.Image`,
the constructor's `default_value`, whether an `on_checked_fn` callback
was registered, and the revert flag. -/

structure CustomBoolWidget where
  default_val : Bool
  checked : Bool
  imageName : String
  hasCheckedFn : Bool
  revertEnabled : Bool
deriving DecidableEq, Repr

namespace CustomBoolWidget

/-- `__init__` + `_build_body`: the image is created with
`name="checked" if default else "unchecked"` and `checked=default`.
Modelled from the spec: the revert image starts disabled (`Clean`). -/
def build (default_value : Bool) (hasCheckedFn : Bool) : CustomBoolWidget :=
  { default_val := default_value
    checked := default_value
    imageName := if default_value then "checked" else "unchecked"
    hasCheckedFn := hasCheckedFn
    revertEnabled := false }

/-- `_on_value_changed`: toggles `checked`, swaps the image name, sets
`revert_img.enabled = default != checked`, and calls `on_checked_fn`
with the new checked value when one is registered.  Returns the new
state and the list of callback invocations. -/
def on_value_changed (w : CustomBoolWidget) : CustomBoolWidget × List Bool :=
  let checked := !w.checked
  ({ w with
      checked := checked
      imageName := if checked then "checked" else "unchecked"
      revertEnabled := decide (w.default_val ≠ checked) },
   if w.hasCheckedFn then [checked] else [])

/-- `_restore_default`: guarded by `revert_img.enabled`; implemented by
re-invoking `_on_value_changed` (the toggle). -/
def restore_default (w : CustomBoolWidget) : CustomBoolWidget × List Bool :=
  if w.revertEnabled then w.on_value_changed else (w, [])

/-- `n` value-change (toggle) events in sequence, discarding callbacks. -/
def applyToggles (w : CustomBoolWidget) : Nat → CustomBoolWidget
  | 0 => w
  | n + 1 => (applyToggles w n).on_value_changed.1

/-- The dirty flag agrees with `current != default`. -/
def dirtyInv (w : CustomBoolWidget) : Prop :=
  w.revertEnabled = decide (w.checked ≠ w.default_val)

instance (w : CustomBoolWidget) : Decidable w.dirtyInv := by
  unfold dirtyInv; infer_instance

end CustomBoolWidget

/-! ## CustomSliderWidget

The constructor's `num_type` selects the numeric domain: `"int"` builds
`ui.IntSlider`/`ui.IntField` (the model holds ints, read back with
`as_int`), `"float"` builds `ui.FloatSlider`/`ui.FloatField` (read back
with `as_float`).  The embedding makes that choice a type parameter `α`
(`Int` for `"int"`; `ℚ` stands in for the float domain, whose dirty
check is the exact comparison `default_val != index` as implemented). -/

structure CustomSliderWidget (α : Type) where
  default_val : α
  modelVal : α
  hasSlideFn : Bool
  revertEnabled : Bool
deriving DecidableEq, Repr

namespace CustomSliderWidget

variable {α : Type} [DecidableEq α]

/-- `__init__` + `_build_body`: `model.set_value(self.__default_val)` runs
during the build, before `add_value_changed_fn` registers the callback.
Modelled from the spec: the revert image starts disabled (`Clean`). -/
def build (default_val : α) (hasSlideFn : Bool) : CustomSliderWidget α :=
  { default_val := default_val, modelVal := default_val
    hasSlideFn := hasSlideFn, revertEnabled := false }

/-- `_on_value_changed`: reads `index` back from the model (`as_float`
or `as_int` according to `num_type`), sets
`revert_img.enabled = default_val != index`, and calls `on_slide_fn`
with `index` when one is registered. -/
def on_value_changed (w : CustomSliderWidget α) : CustomSliderWidget α × List α :=
  let index := w.modelVal
  ({ w with revertEnabled := decide (w.default_val ≠ index) },
   if w.hasSlideFn then [index] else [])

/-- A value-change event delivered by the toolkit: the model value is set
to `v`, then the registered `_on_value_changed` callback runs. -/
def setValue (w : CustomSliderWidget α) (v : α) : CustomSliderWidget α × List α :=
  on_value_changed { w with modelVal := v }

/-- `_restore_default`: guarded by `revert_img.enabled`; writes the
default into the model and disables the revert image. -/
def restore_default (w : CustomSliderWidget α) : CustomSliderWidget α :=
  if w.revertEnabled then
    { w with modelVal := w.default_val, revertEnabled := false }
  else w

/-- A sequence of value-change events, applied in order, discarding the
callback invocations. -/
def applySets (w : CustomSliderWidget α) (vs : List α) : CustomSliderWidget α :=
  vs.foldl (fun s v => (setValue s v).1) w

/-- The dirty flag agrees with `current != default`. -/
def dirtyInv (w : CustomSliderWidget α) : Prop :=
  w.revertEnabled = decide (w.modelVal ≠ w.default_val)

instance (w : CustomSliderWidget α) : Decidable w.dirtyInv := by
  unfold dirtyInv; infer_instance

end CustomSliderWidget

/-! ## CustomSkySelectionGroup

Four buttons (`clear`, `cloudy`, `overcast`, `night`); `_on_button`
optionally fires `on_select_fn` with the capitalized type, resets every
button to name `"control_button"` / enabled, marks the pressed one
`"control_button_pressed2"`, and enables the revert image.
`self.sky_type` is set to `""` in `__init__` and never written again. -/

inductive SkyButton
  | clear | cloudy | overcast | night
deriving DecidableEq, Repr

/-- The lowercase string `_on_button` receives for each button. -/
def SkyButton.label : SkyButton → String
  | .clear => "clear"
  | .cloudy => "cloudy"
  | .overcast => "overcast"
  | .night => "night"

structure CustomSkySelectionGroup where
  hasSelectFn : Bool
  sky_type : String
  button_clear : UiButton
  button_cloudy : UiButton
  button_overcast : UiButton
  button_night : UiButton
  revertEnabled : Bool
deriving DecidableEq, Repr

namespace CustomSkySelectionGroup

/-- `__init__` + `_build_body`: all four `ui.Button`s are created with
`name="control_button"` (and the toolkit's default `enabled=True`);
`sky_type` starts as `""`.
Modelled from the spec: the revert image starts disabled (`Clean`). -/
def build (hasSelectFn : Bool) : CustomSkySelectionGroup :=
  { hasSelectFn := hasSelectFn
    sky_type := ""
    button_clear := ⟨"control_button", true⟩
    button_cloudy := ⟨"control_button", true⟩
    button_overcast := ⟨"control_button", true⟩
    button_night := ⟨"control_button", true⟩
    revertEnabled := false }

/-- `getattr(self, f"button_{sky_type}")`. -/
def getButton (w : CustomSkySelectionGroup) : SkyButton → UiButton
  | .clear => w.button_clear
  | .cloudy => w.button_cloudy
  | .overcast => w.button_overcast
  | .night => w.button_night

/-- Write one button attribute back. -/
def setButton (w : CustomSkySelectionGroup) : SkyButton → UiButton → CustomSkySelectionGroup
  | .clear, b => { w with button_clear := b }
  | .cloudy, b => { w with button_cloudy := b }
  | .overcast, b => { w with button_overcast := b }
  | .night, b => { w with button_night := b }

/-- `enable_buttons`: every button in `button_list` gets
`enabled = True` and `name = "control_button"`. -/
def enable_buttons (w : CustomSkySelectionGroup) : CustomSkySelectionGroup :=
  { w with
    button_clear := ⟨"control_button", true⟩
    button_cloudy := ⟨"control_button", true⟩
    button_overcast := ⟨"control_button", true⟩
    button_night := ⟨"control_button", true⟩ }

/-- `_on_button(sky_type)`: fire `on_select_fn(sky_type.capitalize())`
if registered, reset all buttons, rename the chosen one to
`"control_button_pressed2"`, enable the revert image. -/
def on_button (w : CustomSkySelectionGroup) (b : SkyButton) :
    CustomSkySelectionGroup × List String :=
  let calls := if w.hasSelectFn then [pyCapitalize b.label] else []
  let w := w.enable_buttons
  let w := w.setButton b { w.getButton b with name := "control_button_pressed2" }
  ({ w with revertEnabled := true }, calls)

/-- `_restore_default`: guarded by `revert_img.enabled`; disables the
revert image, resets the buttons, then calls `self.on_select_fn("")`
with no `None` guard — a `TypeError` when no callback was supplied. -/
def restore_default (w : CustomSkySelectionGroup) :
    Except String (CustomSkySelectionGroup × List String) :=
  if w.revertEnabled then
    let w := { w with revertEnabled := false }
    let w := w.enable_buttons
    if w.hasSelectFn then .ok (w, [""])
    else .error "TypeError: NoneType object is not callable"
  else .ok (w, [])

/-- The selection the button names display: the label of the button
carrying the pressed name, or `""` when none does. -/
def selected (w : CustomSkySelectionGroup) : String :=
  if w.button_clear.name = "control_button_pressed2" then "clear"
  else if w.button_cloudy.name = "control_button_pressed2" then "cloudy"
  else if w.button_overcast.name = "control_button_pressed2" then "overcast"
  else if w.button_night.name = "control_button_pressed2" then "night"
  else ""

/-- Sequence of button clicks, applied in order. -/
def applyButtons (w : CustomSkySelectionGroup) (bs : List SkyButton) :
    CustomSkySelectionGroup :=
  bs.foldl (fun s b => (s.on_button b).1) w

/-- States the widget can reach: freshly built, after a click, or after
a restore that ran without raising. -/
inductive Reachable : CustomSkySelectionGroup → Prop
  | init (h : Bool) : Reachable (build h)
  | button {w : CustomSkySelectionGroup} (b : SkyButton) :
      Reachable w → Reachable (w.on_button b).1
  | restore {w w' : CustomSkySelectionGroup} {c : List String} :
      Reachable w → w.restore_default = .ok (w', c) → Reachable w'

end CustomSkySelectionGroup

/-! ## CustomFlowSelectionGroup

Three buttons (`fire`, `smoke`, `dust`); same shape as the sky group,
including the unguarded `self.on_select_fn("")` in `_restore_default`. -/

inductive FlowButton
  | fire | smoke | dust
deriving DecidableEq, Repr

/-- The lowercase string `_on_button` receives for each button. -/
def FlowButton.label : FlowButton → String
  | .fire => "fire"
  | .smoke => "smoke"
  | .dust => "dust"

structure CustomFlowSelectionGroup where
  hasSelectFn : Bool
  sky_type : String
  button_fire : UiButton
  button_smoke : UiButton
  button_dust : UiButton
  revertEnabled : Bool
deriving DecidableEq, Repr

namespace CustomFlowSelectionGroup

/-- `__init__` + `_build_body`: the three `ui.Button`s are created with
`name="control_button"` (default `enabled=True`); `sky_type` starts `""`.
Modelled from the spec: the revert image starts disabled (`Clean`). -/
def build (hasSelectFn : Bool) : CustomFlowSelectionGroup :=
  { hasSelectFn := hasSelectFn
    sky_type := ""
    button_fire := ⟨"control_button", true⟩
    button_smoke := ⟨"control_button", true⟩
    button_dust := ⟨"control_button", true⟩
    revertEnabled := false }

/-- `getattr(self, f"button_{flow_type}")`. -/
def getButton (w : CustomFlowSelectionGroup) : FlowButton → UiButton
  | .fire => w.button_fire
  | .smoke => w.button_smoke
  | .dust => w.button_dust

/-- Write one button attribute back. -/
def setButton (w : CustomFlowSelectionGroup) : FlowButton → UiButton → CustomFlowSelectionGroup
  | .fire, b => { w with button_fire := b }
  | .smoke, b => { w with button_smoke := b }
  | .dust, b => { w with button_dust := b }

/-- `enable_buttons`: every button in `button_list` gets
`enabled = True` and `name = "control_button"`. -/
def enable_buttons (w : CustomFlowSelectionGroup) : CustomFlowSelectionGroup :=
  { w with
    button_fire := ⟨"control_button", true⟩
    button_smoke := ⟨"control_button", true⟩
    button_dust := ⟨"control_button", true⟩ }

/-- `_on_button(flow_type)`: fire `on_select_fn(flow_type.capitalize())`
if registered, reset all buttons, rename the chosen one to
`"control_button_pressed2"`, enable the revert image. -/
def on_button (w : CustomFlowSelectionGroup) (b : FlowButton) :
    CustomFlowSelectionGroup × List String :=
  let calls := if w.hasSelectFn then [pyCapitalize b.label] else []
  let w := w.enable_buttons
  let w := w.setButton b { w.getButton b with name := "control_button_pressed2" }
  ({ w with revertEnabled := true }, calls)

/-- `_restore_default`: guarded by `revert_img.enabled`; disables the
revert image, resets the buttons, then calls `self.on_select_fn("")`
with no `None` guard — a `TypeError` when no callback was supplied. -/
def restore_default (w : CustomFlowSelectionGroup) :
    Except String (CustomFlowSelectionGroup × List String) :=
  if w.revertEnabled then
    let w := { w with revertEnabled := false }
    let w := w.enable_buttons
    if w.hasSelectFn then .ok (w, [""])
    else .error "TypeError: NoneType object is not callable"
  else .ok (w, [])

/-- The selection the button names display: the label of the button
carrying the pressed name, or `""` when none does. -/
def selected (w : CustomFlowSelectionGroup) : String :=
  if w.button_fire.name = "control_button_pressed2" then "fire"
  else if w.button_smoke.name = "control_button_pressed2" then "smoke"
  else if w.button_dust.name = "control_button_pressed2" then "dust"
  else ""

/-- Sequence of button clicks, applied in order. -/
def applyButtons (w : CustomFlowSelectionGroup) (bs : List FlowButton) :
    CustomFlowSelectionGroup :=
  bs.foldl (fun s b => (s.on_button b).1) w

/-- States the widget can reach: freshly built, after a click, or after
a restore that ran without raising. -/
inductive Reachable : CustomFlowSelectionGroup → Prop
  | init (h : Bool) : Reachable (build h)
  | button {w : CustomFlowSelectionGroup} (b : FlowButton) :
      Reachable w → Reachable (w.on_button b).1
  | restore {w w' : CustomFlowSelectionGroup} {c : List String} :
      Reachable w → w.restore_default = .ok (w', c) → Reachable w'

end CustomFlowSelectionGroup

/-! ## The guarded `model` property getters (C10)

`CustomComboboxWidget.model`, `CustomSliderWidget.model` and
`CustomPathButtonWidget.model` all read an inner-widget attribute that
is `None` until `_build_body`/`_build_fn` has run, behind
`if self.__combobox_widget:` (resp. `__slider`, `__pathfield`).  A
Python `if obj:` on a plain object is a `None` test, so the reference is
embedded as `Option` of a record carrying the inner widget's `model`. -/

/-- An inner toolkit widget (combobox / slider / string field) exposing
a `model` attribute; `μ` is the opaque model type. -/
structure InnerWidget (μ : Type) where
  model : μ

/-- `CustomComboboxWidget.model` getter: `if self.__combobox_widget:
return self.__combobox_widget.model` — falls off the end (Python
`None`) when the body has not been built. -/
def comboboxModelGetter {μ : Type} (comboboxWidget : Option (InnerWidget μ)) : Option μ :=
  match comboboxWidget with
  | some w => some w.model
  | none => none

/-- `CustomSliderWidget.model` getter: `if self.__slider:
return self.__slider.model`. -/
def sliderModelGetter {μ : Type} (slider : Option (InnerWidget μ)) : Option μ :=
  match slider with
  | some w => some w.model
  | none => none

/-- `CustomPathButtonWidget.model` getter: `if self.__pathfield:
return self.__pathfield.model`. -/
def pathButtonModelGetter {μ : Type} (pathfield : Option (InnerWidget μ)) : Option μ :=
  match pathfield with
  | some w => some w.model
  | none => none

/-! ## Helper lemmas -/

lemma decide_ne_comm {α : Type} [DecidableEq α] (a b : α) :
    decide (a ≠ b) = decide (b ≠ a) := by
  rw [decide_eq_decide]
  exact ne_comm

namespace CustomComboboxWidget

lemma cb_setValue_default_val (w : CustomComboboxWidget) (v : Int) :
    (w.setValue v).default_val = w.default_val := rfl

lemma cb_setValue_comboboxVal (w : CustomComboboxWidget) (v : Int) :
    (w.setValue v).comboboxVal = v := rfl

lemma cb_setValue_revertEnabled (w : CustomComboboxWidget) (v : Int) :
    (w.setValue v).revertEnabled = decide (v ≠ w.default_val) := by
  simp only [setValue, on_value_changed]
  exact decide_ne_comm _ _

lemma cb_dirtyInv_setValue (w : CustomComboboxWidget) (v : Int) :
    (w.setValue v).dirtyInv := by
  simp only [dirtyInv, setValue, on_value_changed]
  exact decide_ne_comm _ _

lemma cb_applySets_default_val (vs : List Int) :
    ∀ w : CustomComboboxWidget, (w.applySets vs).default_val = w.default_val := by
  induction vs with
  | nil => intro w; rfl
  | cons v vs ih =>
      intro w
      show ((w.setValue v).applySets vs).default_val = _
      rw [ih]
      rfl

lemma cb_dirtyInv_applySets (vs : List Int) :
    ∀ w : CustomComboboxWidget, w.dirtyInv → (w.applySets vs).dirtyInv := by
  induction vs with
  | nil => intro w h; exact h
  | cons v vs ih =>
      intro w _
      exact ih (w.setValue v) (cb_dirtyInv_setValue w v)

lemma cb_restore_of_dirtyInv (w : CustomComboboxWidget) (h : w.dirtyInv) :
    w.restore_default.comboboxVal = w.default_val ∧
      w.restore_default.revertEnabled = false := by
  unfold dirtyInv at h
  cases hr : w.revertEnabled with
  | true => simp [restore_default, hr]
  | false =>
      rw [hr] at h
      have hv : w.comboboxVal = w.default_val := by simpa using h.symm
      simp [restore_default, hr, hv]

lemma cb_restore_default_val (w : CustomComboboxWidget) :
    w.restore_default.default_val = w.default_val := by
  by_cases hr : w.revertEnabled <;> simp [restore_default, hr]

lemma cb_restore_noop (w : CustomComboboxWidget) (h : w.revertEnabled = false) :
    w.restore_default = w := by
  simp [restore_default, h]

lemma cb_restore_restore (w : CustomComboboxWidget) :
    w.restore_default.restore_default = w.restore_default := by
  by_cases hr : w.revertEnabled <;> simp [restore_default, hr]

end CustomComboboxWidget

namespace CustomSliderWidget

variable {α : Type} [DecidableEq α]

lemma sl_setValue_default_val (w : CustomSliderWidget α) (v : α) :
    (w.setValue v).1.default_val = w.default_val := rfl

lemma sl_setValue_modelVal (w : CustomSliderWidget α) (v : α) :
    (w.setValue v).1.modelVal = v := rfl

lemma sl_setValue_revertEnabled (w : CustomSliderWidget α) (v : α) :
    (w.setValue v).1.revertEnabled = decide (v ≠ w.default_val) := by
  simp only [setValue, on_value_changed]
  exact decide_ne_comm _ _

lemma sl_dirtyInv_setValue (w : CustomSliderWidget α) (v : α) :
    (w.setValue v).1.dirtyInv := by
  simp only [dirtyInv, setValue, on_value_changed]
  exact decide_ne_comm _ _

lemma sl_applySets_default_val (vs : List α) :
    ∀ w : CustomSliderWidget α, (w.applySets vs).default_val = w.default_val := by
  induction vs with
  | nil => intro w; rfl
  | cons v vs ih =>
      intro w
      show (((w.setValue v).1).applySets vs).default_val = _
      rw [ih]
      rfl

lemma sl_dirtyInv_applySets (vs : List α) :
    ∀ w : CustomSliderWidget α, w.dirtyInv → (w.applySets vs).dirtyInv := by
  induction vs with
  | nil => intro w h; exact h
  | cons v vs ih =>
      intro w _
      exact ih (w.setValue v).1 (sl_dirtyInv_setValue w v)

lemma sl_dirtyInv_build (d : α) (hs : Bool) : (build d hs).dirtyInv := by
  simp [build, dirtyInv]

lemma sl_restore_of_dirtyInv (w : CustomSliderWidget α) (h : w.dirtyInv) :
    w.restore_default.modelVal = w.default_val ∧
      w.restore_default.revertEnabled = false := by
  unfold dirtyInv at h
  cases hr : w.revertEnabled with
  | true => simp [restore_default, hr]
  | false =>
      rw [hr] at h
      have hv : w.modelVal = w.default_val := by simpa using h.symm
      simp [restore_default, hr, hv]

omit [DecidableEq α] in
lemma sl_restore_default_val (w : CustomSliderWidget α) :
    w.restore_default.default_val = w.default_val := by
  by_cases hr : w.revertEnabled <;> simp [restore_default, hr]

omit [DecidableEq α] in
lemma sl_restore_noop (w : CustomSliderWidget α) (h : w.revertEnabled = false) :
    w.restore_default = w := by
  simp [restore_default, h]

omit [DecidableEq α] in
lemma sl_restore_restore (w : CustomSliderWidget α) :
    w.restore_default.restore_default = w.restore_default := by
  by_cases hr : w.revertEnabled <;> simp [restore_default, hr]

end CustomSliderWidget

namespace CustomBoolWidget

lemma bw_on_value_changed_default_val (w : CustomBoolWidget) :
    (w.on_value_changed).1.default_val = w.default_val := rfl

lemma bw_on_value_changed_checked (w : CustomBoolWidget) :
    (w.on_value_changed).1.checked = !w.checked := rfl

lemma bw_dirtyInv_on_value_changed (w : CustomBoolWidget) :
    (w.on_value_changed).1.dirtyInv := by
  simp only [dirtyInv, on_value_changed]
  exact decide_ne_comm _ _

lemma bw_dirtyInv_build (d hc : Bool) : (build d hc).dirtyInv := by
  simp [build, dirtyInv]

lemma bw_applyToggles_default_val (w : CustomBoolWidget) :
    ∀ n : Nat, (w.applyToggles n).default_val = w.default_val := by
  intro n
  induction n with
  | zero => rfl
  | succ n ih => rw [applyToggles, bw_on_value_changed_default_val, ih]

lemma bw_dirtyInv_applyToggles (w : CustomBoolWidget) (h : w.dirtyInv) :
    ∀ n : Nat, (w.applyToggles n).dirtyInv := by
  intro n
  cases n with
  | zero => exact h
  | succ n => exact bw_dirtyInv_on_value_changed _

lemma bw_restore_of_dirtyInv (w : CustomBoolWidget) (h : w.dirtyInv) :
    (w.restore_default).1.checked = w.default_val ∧
      (w.restore_default).1.revertEnabled = false := by
  rcases w with ⟨d, c, img, hf, r⟩
  unfold dirtyInv at h
  cases d <;> cases c <;> cases r <;>
    simp_all [restore_default, on_value_changed]

lemma bw_restore_default_val (w : CustomBoolWidget) :
    (w.restore_default).1.default_val = w.default_val := by
  by_cases hr : w.revertEnabled <;> simp [restore_default, on_value_changed, hr]

lemma bw_restore_noop (w : CustomBoolWidget) (h : w.revertEnabled = false) :
    w.restore_default = (w, []) := by
  simp [restore_default, h]

end CustomBoolWidget

namespace CustomSkySelectionGroup

lemma sky_on_button_revertEnabled (w : CustomSkySelectionGroup) (b : SkyButton) :
    (w.on_button b).1.revertEnabled = true := by
  cases b <;> rfl

lemma sky_on_button_hasSelectFn (w : CustomSkySelectionGroup) (b : SkyButton) :
    (w.on_button b).1.hasSelectFn = w.hasSelectFn := by
  cases b <;> rfl

lemma sky_on_button_selected (w : CustomSkySelectionGroup) (b : SkyButton) :
    (w.on_button b).1.selected = b.label := by
  cases b <;> rfl

lemma sky_on_button_calls (w : CustomSkySelectionGroup) (b : SkyButton) :
    (w.on_button b).2 = if w.hasSelectFn then [pyCapitalize b.label] else [] := by
  cases b <;> rfl

lemma sky_selected_enable_buttons (w : CustomSkySelectionGroup) :
    w.enable_buttons.selected = "" := rfl

lemma sky_selected_build (h : Bool) : (build h).selected = "" := rfl

lemma sky_restore_dirty_hasFn (w : CustomSkySelectionGroup)
    (hr : w.revertEnabled = true) (hf : w.hasSelectFn = true) :
    w.restore_default =
      .ok (({ w with revertEnabled := false }).enable_buttons, [""]) := by
  simp [restore_default, enable_buttons, hr, hf]

lemma sky_restore_dirty_noFn (w : CustomSkySelectionGroup)
    (hr : w.revertEnabled = true) (hf : w.hasSelectFn = false) :
    w.restore_default = .error "TypeError: NoneType object is not callable" := by
  simp [restore_default, enable_buttons, hr, hf]

lemma sky_restore_clean (w : CustomSkySelectionGroup) (hr : w.revertEnabled = false) :
    w.restore_default = .ok (w, []) := by
  simp [restore_default, hr]

lemma sky_reach_inv {w : CustomSkySelectionGroup} (h : Reachable w) :
    w.revertEnabled = true ↔ w.selected ≠ "" := by
  induction h with
  | init h => rw [sky_selected_build]; simp [build]
  | button b hr ih =>
      rw [sky_on_button_revertEnabled, sky_on_button_selected]
      simp only [true_iff]
      cases b <;> simp [SkyButton.label]
  | restore hr hok ih =>
      rename_i w₀ w' c
      cases he : w₀.revertEnabled with
      | false =>
          rw [sky_restore_clean w₀ he] at hok
          obtain ⟨rfl, rfl⟩ : w' = w₀ ∧ c = [] := by
            constructor <;> cases hok <;> rfl
          exact ih
      | true =>
          cases hf : w₀.hasSelectFn with
          | false => rw [sky_restore_dirty_noFn w₀ he hf] at hok; cases hok
          | true =>
              rw [sky_restore_dirty_hasFn w₀ he hf] at hok
              obtain rfl : ({ w₀ with revertEnabled := false }).enable_buttons = w' := by
                cases hok; rfl
              simp [enable_buttons, selected]

lemma sky_hasSelectFn_applyButtons (bs : List SkyButton) :
    ∀ w : CustomSkySelectionGroup, (w.applyButtons bs).hasSelectFn = w.hasSelectFn := by
  induction bs with
  | nil => intro w; rfl
  | cons b bs ih =>
      intro w
      show (((w.on_button b).1).applyButtons bs).hasSelectFn = _
      rw [ih, sky_on_button_hasSelectFn]

lemma sky_reachable_applyButtons (bs : List SkyButton) :
    ∀ w : CustomSkySelectionGroup, Reachable w → Reachable (w.applyButtons bs) := by
  induction bs with
  | nil => intro w h; exact h
  | cons b bs ih =>
      intro w h
      exact ih (w.on_button b).1 (Reachable.button b h)

end CustomSkySelectionGroup

namespace CustomFlowSelectionGroup

lemma flow_on_button_revertEnabled (w : CustomFlowSelectionGroup) (b : FlowButton) :
    (w.on_button b).1.revertEnabled = true := by
  cases b <;> rfl

lemma flow_on_button_hasSelectFn (w : CustomFlowSelectionGroup) (b : FlowButton) :
    (w.on_button b).1.hasSelectFn = w.hasSelectFn := by
  cases b <;> rfl

lemma flow_on_button_selected (w : CustomFlowSelectionGroup) (b : FlowButton) :
    (w.on_button b).1.selected = b.label := by
  cases b <;> rfl

lemma flow_on_button_calls (w : CustomFlowSelectionGroup) (b : FlowButton) :
    (w.on_button b).2 = if w.hasSelectFn then [pyCapitalize b.label] else [] := by
  cases b <;> rfl

lemma flow_selected_enable_buttons (w : CustomFlowSelectionGroup) :
    w.enable_buttons.selected = "" := rfl

lemma flow_selected_build (h : Bool) : (build h).selected = "" := rfl

lemma flow_restore_dirty_hasFn (w : CustomFlowSelectionGroup)
    (hr : w.revertEnabled = true) (hf : w.hasSelectFn = true) :
    w.restore_default =
      .ok (({ w with revertEnabled := false }).enable_buttons, [""]) := by
  simp [restore_default, enable_buttons, hr, hf]

lemma flow_restore_dirty_noFn (w : CustomFlowSelectionGroup)
    (hr : w.revertEnabled = true) (hf : w.hasSelectFn = false) :
    w.restore_default = .error "TypeError: NoneType object is not callable" := by
  simp [restore_default, enable_buttons, hr, hf]

lemma flow_restore_clean (w : CustomFlowSelectionGroup) (hr : w.revertEnabled = false) :
    w.restore_default = .ok (w, []) := by
  simp [restore_default, hr]

lemma flow_reach_inv {w : CustomFlowSelectionGroup} (h : Reachable w) :
    w.revertEnabled = true ↔ w.selected ≠ "" := by
  induction h with
  | init h => rw [flow_selected_build]; simp [build]
  | button b hr ih =>
      rw [flow_on_button_revertEnabled, flow_on_button_selected]
      simp only [true_iff]
      cases b <;> simp [FlowButton.label]
  | restore hr hok ih =>
      rename_i w₀ w' c
      cases he : w₀.revertEnabled with
      | false =>
          rw [flow_restore_clean w₀ he] at hok
          obtain ⟨rfl, rfl⟩ : w' = w₀ ∧ c = [] := by
            constructor <;> cases hok <;> rfl
          exact ih
      | true =>
          cases hf : w₀.hasSelectFn with
          | false => rw [flow_restore_dirty_noFn w₀ he hf] at hok; cases hok
          | true =>
              rw [flow_restore_dirty_hasFn w₀ he hf] at hok
              obtain rfl : ({ w₀ with revertEnabled := false }).enable_buttons = w' := by
                cases hok; rfl
              simp [enable_buttons, selected]

lemma flow_hasSelectFn_applyButtons (bs : List FlowButton) :
    ∀ w : CustomFlowSelectionGroup, (w.applyButtons bs).hasSelectFn = w.hasSelectFn := by
  induction bs with
  | nil => intro w; rfl
  | cons b bs ih =>
      intro w
      show (((w.on_button b).1).applyButtons bs).hasSelectFn = _
      rw [ih, flow_on_button_hasSelectFn]

lemma flow_reachable_applyButtons (bs : List FlowButton) :
    ∀ w : CustomFlowSelectionGroup, Reachable w → Reachable (w.applyButtons bs) := by
  induction bs with
  | nil => intro w h; exact h
  | cons b bs ih =>
      intro w h
      exact ih (w.on_button b).1 (Reachable.button b h)

end CustomFlowSelectionGroup

/-! ## Claims -/

/-- C1 (amended): after any sequence of value-change events,
`_restore_default` leaves the current value equal to the default and the
revert indicator disabled — for the boolean widget (from any reachable
state, and from any state satisfying the dirty-flag invariant), the
slider, and the button groups, for every sequence; for the combobox,
for every nonempty sequence (and for the empty sequence when
`default_value = 0`, the combobox's hard-coded initial index). -/
theorem claim_C1 :
    (∀ (d v : Int) (vs : List Int),
        ((CustomComboboxWidget.build d).applySets (v :: vs)).restore_default.comboboxVal = d ∧
        ((CustomComboboxWidget.build d).applySets (v :: vs)).restore_default.revertEnabled
          = false) ∧
    (∀ vs : List Int,
        ((CustomComboboxWidget.build 0).applySets vs).restore_default.comboboxVal = 0 ∧
        ((CustomComboboxWidget.build 0).applySets vs).restore_default.revertEnabled = false) ∧
    (∀ (α : Type) [DecidableEq α] (d : α) (hs : Bool) (vs : List α),
        ((CustomSliderWidget.build d hs).applySets vs).restore_default.modelVal = d ∧
        ((CustomSliderWidget.build d hs).applySets vs).restore_default.revertEnabled = false) ∧
    (∀ (d hc : Bool) (n : Nat),
        (((CustomBoolWidget.build d hc).applyToggles n).restore_default).1.checked = d ∧
        (((CustomBoolWidget.build d hc).applyToggles n).restore_default).1.revertEnabled
          = false) ∧
    (∀ w : CustomBoolWidget, w.dirtyInv →
        (w.restore_default).1.checked = w.default_val ∧
        (w.restore_default).1.revertEnabled = false) ∧
    (∀ bs : List SkyButton,
        ∃ w' c,
          ((CustomSkySelectionGroup.build true).applyButtons bs).restore_default
            = .ok (w', c) ∧
          w'.selected = "" ∧ w'.revertEnabled = false) ∧
    (∀ bs : List FlowButton,
        ∃ w' c,
          ((CustomFlowSelectionGroup.build true).applyButtons bs).restore_default
            = .ok (w', c) ∧
          w'.selected = "" ∧ w'.revertEnabled = false) := by
  refine ⟨?_, ?_, ?_, ?_, ?_, ?_, ?_⟩
  · intro d v vs
    have hinv : ((CustomComboboxWidget.build d).applySets (v :: vs)).dirtyInv :=
      CustomComboboxWidget.cb_dirtyInv_applySets vs _
        (CustomComboboxWidget.cb_dirtyInv_setValue (CustomComboboxWidget.build d) v)
    have h := CustomComboboxWidget.cb_restore_of_dirtyInv _ hinv
    rwa [CustomComboboxWidget.cb_applySets_default_val] at h
  · intro vs
    have hinv : ((CustomComboboxWidget.build 0).applySets vs).dirtyInv :=
      CustomComboboxWidget.cb_dirtyInv_applySets vs _ (by decide)
    have h := CustomComboboxWidget.cb_restore_of_dirtyInv _ hinv
    rwa [CustomComboboxWidget.cb_applySets_default_val] at h
  · intro α _ d hs vs
    have hinv : ((CustomSliderWidget.build d hs).applySets vs).dirtyInv :=
      CustomSliderWidget.sl_dirtyInv_applySets vs _ (CustomSliderWidget.sl_dirtyInv_build d hs)
    have h := CustomSliderWidget.sl_restore_of_dirtyInv _ hinv
    rwa [CustomSliderWidget.sl_applySets_default_val] at h
  · intro d hc n
    have hinv : ((CustomBoolWidget.build d hc).applyToggles n).dirtyInv :=
      CustomBoolWidget.bw_dirtyInv_applyToggles _ (CustomBoolWidget.bw_dirtyInv_build d hc) n
    have h := CustomBoolWidget.bw_restore_of_dirtyInv _ hinv
    rwa [CustomBoolWidget.bw_applyToggles_default_val] at h
  · exact fun w h => CustomBoolWidget.bw_restore_of_dirtyInv w h
  · intro bs
    have hreach := CustomSkySelectionGroup.sky_reachable_applyButtons bs _
      (CustomSkySelectionGroup.Reachable.init true)
    have hf : ((CustomSkySelectionGroup.build true).applyButtons bs).hasSelectFn = true := by
      rw [CustomSkySelectionGroup.sky_hasSelectFn_applyButtons]
      rfl
    cases hr : ((CustomSkySelectionGroup.build true).applyButtons bs).revertEnabled with
    | true =>
        exact ⟨_, [""], CustomSkySelectionGroup.sky_restore_dirty_hasFn _ hr hf, rfl, rfl⟩
    | false =>
        have hsel := CustomSkySelectionGroup.sky_reach_inv hreach
        rw [hr] at hsel
        simp only [Bool.false_eq_true, false_iff, not_not] at hsel
        exact ⟨_, [], CustomSkySelectionGroup.sky_restore_clean _ hr, hsel, hr⟩
  · intro bs
    have hreach := CustomFlowSelectionGroup.flow_reachable_applyButtons bs _
      (CustomFlowSelectionGroup.Reachable.init true)
    have hf : ((CustomFlowSelectionGroup.build true).applyButtons bs).hasSelectFn = true := by
      rw [CustomFlowSelectionGroup.flow_hasSelectFn_applyButtons]
      rfl
    cases hr : ((CustomFlowSelectionGroup.build true).applyButtons bs).revertEnabled with
    | true =>
        exact ⟨_, [""], CustomFlowSelectionGroup.flow_restore_dirty_hasFn _ hr hf, rfl, rfl⟩
    | false =>
        have hsel := CustomFlowSelectionGroup.flow_reach_inv hreach
        rw [hr] at hsel
        simp only [Bool.false_eq_true, false_iff, not_not] at hsel
        exact ⟨_, [], CustomFlowSelectionGroup.flow_restore_clean _ hr, hsel, hr⟩

/-- C1 witness: the dirty-state conjunct applied to a freshly toggled
boolean widget. -/
theorem claim_C1_witness :
    ((((CustomBoolWidget.build true true).on_value_changed).1.restore_default).1.checked
        = ((CustomBoolWidget.build true true).on_value_changed).1.default_val ∧
      (((CustomBoolWidget.build true true).on_value_changed).1.restore_default).1.revertEnabled
        = false) :=
  claim_C1.2.2.2.2.1 ((CustomBoolWidget.build true true).on_value_changed).1 (by decide)

/-- C1 counterexample: a combobox built with `default_value = 1` and an
empty event sequence; `_restore_default` leaves the selected index at
the hard-coded initial `0`, not at the default. -/
theorem claim_C1_counterexample :
    decide ((((CustomComboboxWidget.build 1).applySets []).restore_default).comboboxVal
      = ((CustomComboboxWidget.build 1).applySets []).default_val) = false := by
  decide

/-- C2: after a `set(v)` value-change event the dirty flag equals
`v != default` — combobox (integer index), slider (numeric value over
the `num_type`-selected domain), and boolean widget (toggled checked
state against the default). -/
theorem claim_C2 :
    (∀ (w : CustomComboboxWidget) (v : Int),
        (w.setValue v).revertEnabled = decide (v ≠ w.default_val)) ∧
    (∀ (α : Type) [DecidableEq α] (w : CustomSliderWidget α) (v : α),
        (w.setValue v).1.revertEnabled = decide (v ≠ w.default_val)) ∧
    (∀ w : CustomBoolWidget,
        (w.on_value_changed).1.revertEnabled
          = decide ((w.on_value_changed).1.checked ≠ w.default_val)) := by
  refine ⟨CustomComboboxWidget.cb_setValue_revertEnabled, ?_, ?_⟩
  · intro α _ w v
    exact CustomSliderWidget.sl_setValue_revertEnabled w v
  · intro w
    show decide (w.default_val ≠ !w.checked) = _
    rw [CustomBoolWidget.bw_on_value_changed_checked]
    exact decide_ne_comm _ _

/-- C3 (amended): every mutation path updates the dirty flag atomically
with the current value — value-change events establish
`dirty = (current != default)` outright; `_restore_default` preserves
it whenever it already holds; and for the button groups every reachable
state has the revert flag enabled exactly when some button is marked
selected (the tracked selection differs from the empty-string default).
(A combobox built with `default_value ≠ 0` starts desynchronized and a
clean-state restore does not repair that; see the counterexample.) -/
theorem claim_C3 :
    (∀ (w : CustomComboboxWidget) (v : Int), (w.setValue v).dirtyInv) ∧
    (∀ w : CustomComboboxWidget, w.dirtyInv → w.restore_default.dirtyInv) ∧
    (∀ (α : Type) [DecidableEq α] (w : CustomSliderWidget α) (v : α),
        (w.setValue v).1.dirtyInv) ∧
    (∀ (α : Type) [DecidableEq α] (w : CustomSliderWidget α),
        w.dirtyInv → w.restore_default.dirtyInv) ∧
    (∀ w : CustomBoolWidget, (w.on_value_changed).1.dirtyInv) ∧
    (∀ w : CustomBoolWidget, w.dirtyInv → (w.restore_default).1.dirtyInv) ∧
    (∀ w : CustomSkySelectionGroup, CustomSkySelectionGroup.Reachable w →
        (w.revertEnabled = true ↔ w.selected ≠ "")) ∧
    (∀ w : CustomFlowSelectionGroup, CustomFlowSelectionGroup.Reachable w →
        (w.revertEnabled = true ↔ w.selected ≠ "")) := by
  refine ⟨CustomComboboxWidget.cb_dirtyInv_setValue, ?_, ?_, ?_,
    CustomBoolWidget.bw_dirtyInv_on_value_changed, ?_,
    fun w h => CustomSkySelectionGroup.sky_reach_inv h,
    fun w h => CustomFlowSelectionGroup.flow_reach_inv h⟩
  · intro w h
    obtain ⟨h1, h2⟩ := CustomComboboxWidget.cb_restore_of_dirtyInv w h
    unfold CustomComboboxWidget.dirtyInv
    rw [h1, h2, CustomComboboxWidget.cb_restore_default_val]
    simp
  · intro α _ w v
    exact CustomSliderWidget.sl_dirtyInv_setValue w v
  · intro α _ w h
    obtain ⟨h1, h2⟩ := CustomSliderWidget.sl_restore_of_dirtyInv w h
    unfold CustomSliderWidget.dirtyInv
    rw [h1, h2, CustomSliderWidget.sl_restore_default_val]
    simp
  · intro w h
    obtain ⟨h1, h2⟩ := CustomBoolWidget.bw_restore_of_dirtyInv w h
    unfold CustomBoolWidget.dirtyInv
    rw [h1, h2, CustomBoolWidget.bw_restore_default_val]
    simp

/-- C3 witness: the restore-preservation conjuncts at concrete states
and the button-group invariant at the freshly built sky group. -/
theorem claim_C3_witness :
    (CustomComboboxWidget.build 0).restore_default.dirtyInv ∧
    (((CustomBoolWidget.build true true).on_value_changed).1.restore_default).1.dirtyInv ∧
    ((CustomSkySelectionGroup.build true).revertEnabled = true ↔
      (CustomSkySelectionGroup.build true).selected ≠ "") :=
  ⟨claim_C3.2.1 (CustomComboboxWidget.build 0) (by decide),
   claim_C3.2.2.2.2.2.1 ((CustomBoolWidget.build true true).on_value_changed).1 (by decide),
   claim_C3.2.2.2.2.2.2.1 (CustomSkySelectionGroup.build true)
     (CustomSkySelectionGroup.Reachable.init true)⟩

/-- C3 counterexample: a combobox built with `default_value = 1`,
after the `_restore_default` mutation path, has its dirty flag off
while its current index `0` differs from the default — the flag does
not equal `current != default` there. -/
theorem claim_C3_counterexample :
    decide ((CustomComboboxWidget.build 1).restore_default.dirtyInv) = false := by
  decide

/-- C4 (amended): immediately after the build step every widget has the
dirty flag disabled; the slider's model is initialized to `default_val`,
the boolean image to the default checked state, and the button groups to
no selection — but the combobox's initial selected index is the
hard-coded `0`, which equals its `default_value` parameter only when
that parameter is `0`. -/
theorem claim_C4 :
    (∀ d : Int,
        (CustomComboboxWidget.build d).comboboxVal = 0 ∧
        (CustomComboboxWidget.build d).revertEnabled = false) ∧
    (∀ (α : Type) [DecidableEq α] (d : α) (hs : Bool),
        (CustomSliderWidget.build d hs).modelVal = d ∧
        (CustomSliderWidget.build d hs).revertEnabled = false) ∧
    (∀ d hc : Bool,
        (CustomBoolWidget.build d hc).checked = d ∧
        (CustomBoolWidget.build d hc).revertEnabled = false) ∧
    (∀ h : Bool,
        (CustomSkySelectionGroup.build h).selected = "" ∧
        (CustomSkySelectionGroup.build h).revertEnabled = false) ∧
    (∀ h : Bool,
        (CustomFlowSelectionGroup.build h).selected = "" ∧
        (CustomFlowSelectionGroup.build h).revertEnabled = false) :=
  ⟨fun _ => ⟨rfl, rfl⟩, fun _ _ _ _ => ⟨rfl, rfl⟩, fun _ _ => ⟨rfl, rfl⟩,
   fun _ => ⟨rfl, rfl⟩, fun _ => ⟨rfl, rfl⟩⟩

/-- C4 counterexample: a combobox built with `default_value = 1` does
not have its initial selected index equal to `1`. -/
theorem claim_C4_counterexample :
    decide ((CustomComboboxWidget.build 1).comboboxVal
      = (CustomComboboxWidget.build 1).default_val) = false := by
  decide

/-- C5: button-group selection is exclusive — after clicking A then a
distinct B only B carries the pressed name and A is back to the
unselected name, and every `_on_button` call resets all sibling buttons
before marking the chosen one. -/
theorem claim_C5 :
    (∀ (w : CustomSkySelectionGroup) (a b : SkyButton), a ≠ b →
        ((((w.on_button a).1.on_button b).1.getButton b).name = "control_button_pressed2" ∧
         (((w.on_button a).1.on_button b).1.getButton a).name = "control_button")) ∧
    (∀ (w : CustomSkySelectionGroup) (b c : SkyButton), c ≠ b →
        ((w.on_button b).1.getButton c).name = "control_button") ∧
    (∀ (w : CustomFlowSelectionGroup) (a b : FlowButton), a ≠ b →
        ((((w.on_button a).1.on_button b).1.getButton b).name = "control_button_pressed2" ∧
         (((w.on_button a).1.on_button b).1.getButton a).name = "control_button")) ∧
    (∀ (w : CustomFlowSelectionGroup) (b c : FlowButton), c ≠ b →
        ((w.on_button b).1.getButton c).name = "control_button") := by
  refine ⟨?_, ?_, ?_, ?_⟩
  · intro w a b hab
    cases a <;> cases b <;> first
      | exact absurd rfl hab
      | exact ⟨rfl, rfl⟩
  · intro w b c hcb
    cases b <;> cases c <;> first
      | exact absurd rfl hcb
      | rfl
  · intro w a b hab
    cases a <;> cases b <;> first
      | exact absurd rfl hab
      | exact ⟨rfl, rfl⟩
  · intro w b c hcb
    cases b <;> cases c <;> first
      | exact absurd rfl hcb
      | rfl

/-- C5 witness: clicking clear then cloudy on a fresh sky group leaves
only cloudy pressed. -/
theorem claim_C5_witness :
    (((((CustomSkySelectionGroup.build true).on_button .clear).1.on_button
        .cloudy).1.getButton .cloudy).name = "control_button_pressed2" ∧
     ((((CustomSkySelectionGroup.build true).on_button .clear).1.on_button
        .cloudy).1.getButton .clear).name = "control_button") :=
  claim_C5.1 (CustomSkySelectionGroup.build true) .clear .cloudy (by decide)

/-- C6: from a dirty state with a registered callback,
`_restore_default` invokes the selection callback with the empty string
and resets every button to the unselected name and enabled state. -/
theorem claim_C6 :
    (∀ w : CustomSkySelectionGroup, w.revertEnabled = true → w.hasSelectFn = true →
        ∃ w', w.restore_default = .ok (w', [""]) ∧
          w'.button_clear = ⟨"control_button", true⟩ ∧
          w'.button_cloudy = ⟨"control_button", true⟩ ∧
          w'.button_overcast = ⟨"control_button", true⟩ ∧
          w'.button_night = ⟨"control_button", true⟩ ∧
          w'.selected = "" ∧ w'.revertEnabled = false) ∧
    (∀ w : CustomFlowSelectionGroup, w.revertEnabled = true → w.hasSelectFn = true →
        ∃ w', w.restore_default = .ok (w', [""]) ∧
          w'.button_fire = ⟨"control_button", true⟩ ∧
          w'.button_smoke = ⟨"control_button", true⟩ ∧
          w'.button_dust = ⟨"control_button", true⟩ ∧
          w'.selected = "" ∧ w'.revertEnabled = false) := by
  constructor
  · intro w hr hf
    exact ⟨_, CustomSkySelectionGroup.sky_restore_dirty_hasFn w hr hf,
      rfl, rfl, rfl, rfl, rfl, rfl⟩
  · intro w hr hf
    exact ⟨_, CustomFlowSelectionGroup.flow_restore_dirty_hasFn w hr hf,
      rfl, rfl, rfl, rfl, rfl⟩

/-- C6 witness: restoring the sky group right after a clear click. -/
theorem claim_C6_witness :
    ∃ w', (((CustomSkySelectionGroup.build true).on_button .clear).1).restore_default
        = .ok (w', [""]) ∧
      w'.button_clear = ⟨"control_button", true⟩ ∧
      w'.button_cloudy = ⟨"control_button", true⟩ ∧
      w'.button_overcast = ⟨"control_button", true⟩ ∧
      w'.button_night = ⟨"control_button", true⟩ ∧
      w'.selected = "" ∧ w'.revertEnabled = false :=
  claim_C6.1 (((CustomSkySelectionGroup.build true).on_button .clear).1) rfl rfl

/-- C7: `_restore_default` is idempotent and a no-op when clean — for
combobox and slider on every state, for the boolean widget on every
state satisfying the dirty-flag invariant (its restore re-invokes the
toggle), and for the button groups, where a clean restore returns the
state unchanged with no callback and, with a callback registered, a
second restore after a first one changes nothing. -/
theorem claim_C7 :
    (∀ w : CustomComboboxWidget,
        w.restore_default.restore_default = w.restore_default ∧
        (w.revertEnabled = false → w.restore_default = w)) ∧
    (∀ (α : Type) [DecidableEq α] (w : CustomSliderWidget α),
        w.restore_default.restore_default = w.restore_default ∧
        (w.revertEnabled = false → w.restore_default = w)) ∧
    (∀ w : CustomBoolWidget, w.dirtyInv →
        (w.restore_default).1.restore_default = ((w.restore_default).1, [])) ∧
    (∀ w : CustomBoolWidget, w.revertEnabled = false → w.restore_default = (w, [])) ∧
    (∀ w : CustomSkySelectionGroup, w.revertEnabled = false →
        w.restore_default = .ok (w, [])) ∧
    (∀ w : CustomSkySelectionGroup, w.hasSelectFn = true →
        ∃ w₁ c₁, w.restore_default = .ok (w₁, c₁) ∧
          w₁.restore_default = .ok (w₁, [])) ∧
    (∀ w : CustomFlowSelectionGroup, w.revertEnabled = false →
        w.restore_default = .ok (w, [])) ∧
    (∀ w : CustomFlowSelectionGroup, w.hasSelectFn = true →
        ∃ w₁ c₁, w.restore_default = .ok (w₁, c₁) ∧
          w₁.restore_default = .ok (w₁, [])) := by
  refine ⟨?_, ?_, ?_, CustomBoolWidget.bw_restore_noop,
    fun w h => CustomSkySelectionGroup.sky_restore_clean w h, ?_,
    fun w h => CustomFlowSelectionGroup.flow_restore_clean w h, ?_⟩
  · intro w
    exact ⟨CustomComboboxWidget.cb_restore_restore w, CustomComboboxWidget.cb_restore_noop w⟩
  · intro α _ w
    exact ⟨CustomSliderWidget.sl_restore_restore w, CustomSliderWidget.sl_restore_noop w⟩
  · intro w h
    exact CustomBoolWidget.bw_restore_noop _ (CustomBoolWidget.bw_restore_of_dirtyInv w h).2
  · intro w hf
    cases hr : w.revertEnabled with
    | false =>
        exact ⟨w, [], CustomSkySelectionGroup.sky_restore_clean w hr,
          CustomSkySelectionGroup.sky_restore_clean w hr⟩
    | true =>
        exact ⟨_, [""], CustomSkySelectionGroup.sky_restore_dirty_hasFn w hr hf,
          CustomSkySelectionGroup.sky_restore_clean _ rfl⟩
  · intro w hf
    cases hr : w.revertEnabled with
    | false =>
        exact ⟨w, [], CustomFlowSelectionGroup.flow_restore_clean w hr,
          CustomFlowSelectionGroup.flow_restore_clean w hr⟩
    | true =>
        exact ⟨_, [""], CustomFlowSelectionGroup.flow_restore_dirty_hasFn w hr hf,
          CustomFlowSelectionGroup.flow_restore_clean _ rfl⟩

/-- C7 witness: boolean idempotence at a freshly toggled widget, the
combobox no-op on a clean state, and the double restore of a sky group
with a callback. -/
theorem claim_C7_witness :
    ((((CustomBoolWidget.build true true).on_value_changed).1.restore_default).1.restore_default
        = ((((CustomBoolWidget.build true true).on_value_changed).1.restore_default).1, []) ∧
      (CustomComboboxWidget.build 0).restore_default = CustomComboboxWidget.build 0 ∧
      ∃ w₁ c₁, (CustomSkySelectionGroup.build true).restore_default = .ok (w₁, c₁) ∧
        w₁.restore_default = .ok (w₁, [])) :=
  ⟨claim_C7.2.2.1 ((CustomBoolWidget.build true true).on_value_changed).1 (by decide),
   (claim_C7.1 (CustomComboboxWidget.build 0)).2 rfl,
   claim_C7.2.2.2.2.2.1 (CustomSkySelectionGroup.build true) rfl⟩

/-- C8: a value-change event fires the registered side-effect callback
with the new current value and fires nothing when none is registered;
in particular the slider with default `0.5` receiving `set(0.75)` turns
the dirty flag on and invokes `on_slide_fn` with `0.75`. -/
theorem claim_C8 :
    (∀ (α : Type) [DecidableEq α] (w : CustomSliderWidget α) (v : α),
        (w.setValue v).2 = if w.hasSlideFn then [v] else []) ∧
    (∀ w : CustomBoolWidget,
        (w.on_value_changed).2
          = if w.hasCheckedFn then [(w.on_value_changed).1.checked] else []) ∧
    (((CustomSliderWidget.build ((1 : ℚ)/2) true).setValue (3/4)).1.revertEnabled = true ∧
     ((CustomSliderWidget.build ((1 : ℚ)/2) true).setValue (3/4)).2 = [3/4]) := by
  refine ⟨fun α _ w v => rfl, fun w => rfl, ?_, rfl⟩
  show (decide ((1 : ℚ)/2 ≠ 3/4)) = true
  norm_num

/-- C9: a button group constructed without an `on_select_fn` callback
tolerates clicks (the `_on_button` invocation is guarded by a `None`
check, so no callback fires), but `_restore_default` from the resulting
dirty state raises, because it calls `self.on_select_fn("")` without the
guard. -/
theorem claim_C9 :
    (∀ (w : CustomSkySelectionGroup) (b : SkyButton), w.hasSelectFn = false →
        ((w.on_button b).2 = [] ∧
         (w.on_button b).1.restore_default
           = .error "TypeError: NoneType object is not callable")) ∧
    (∀ (w : CustomFlowSelectionGroup) (b : FlowButton), w.hasSelectFn = false →
        ((w.on_button b).2 = [] ∧
         (w.on_button b).1.restore_default
           = .error "TypeError: NoneType object is not callable")) := by
  constructor
  · intro w b hf
    refine ⟨?_, ?_⟩
    · rw [CustomSkySelectionGroup.sky_on_button_calls, hf]
      rfl
    · exact CustomSkySelectionGroup.sky_restore_dirty_noFn _
        (CustomSkySelectionGroup.sky_on_button_revertEnabled w b)
        ((CustomSkySelectionGroup.sky_on_button_hasSelectFn w b).trans hf)
  · intro w b hf
    refine ⟨?_, ?_⟩
    · rw [CustomFlowSelectionGroup.flow_on_button_calls, hf]
      rfl
    · exact CustomFlowSelectionGroup.flow_restore_dirty_noFn _
        (CustomFlowSelectionGroup.flow_on_button_revertEnabled w b)
        ((CustomFlowSelectionGroup.flow_on_button_hasSelectFn w b).trans hf)

/-- C9 witness: a callback-less sky group, clicked on clear. -/
theorem claim_C9_witness :
    (((CustomSkySelectionGroup.build false).on_button .clear).2 = [] ∧
     ((CustomSkySelectionGroup.build false).on_button .clear).1.restore_default
       = .error "TypeError: NoneType object is not callable") :=
  claim_C9.1 (CustomSkySelectionGroup.build false) .clear rfl

/-- C10: the guarded `model` property getters of the combobox, slider,
and path-button widgets return `None` instead of raising while the
inner widget reference is still `None`, and the inner model once it is
built. -/
theorem claim_C10 :
    ∀ (μ : Type),
      comboboxModelGetter (none : Option (InnerWidget μ)) = none ∧
      sliderModelGetter (none : Option (InnerWidget μ)) = none ∧
      pathButtonModelGetter (none : Option (InnerWidget μ)) = none ∧
      ∀ iw : InnerWidget μ,
        comboboxModelGetter (some iw) = some iw.model ∧
        sliderModelGetter (some iw) = some iw.model ∧
        pathButtonModelGetter (some iw) = some iw.model :=
  fun _ => ⟨rfl, rfl, rfl, fun _ => ⟨rfl, rfl, rfl⟩⟩

end FlamingFont
